import Mathlib

/-!
Shallow embedding of the sentry envelope tunnel core (src/envelope.rs).

The library collaborators (std UTF-8 decoding, serde_json, the sentry_types
DSN type) are represented as parameters of the embedded functions or, where
the spec fixes their behaviour, as definitions modelled from the spec; the
request-handler gate lives in a source file that is not part of this tree
and is likewise modelled from the spec.
-/

/-- Request bodies are raw byte sequences (Vec of u8 in the source). -/
abbrev Bytes := List Nat

/-- JSON values, the shape of a serde_json Value. -/
inductive Json where
  | null : Json
  | bool : Bool → Json
  | num : Int → Json
  | str : String → Json
  | arr : List Json → Json
  | obj : List (String × Json) → Json

/-- Field lookup on a JSON value: the serde_json Value get method returns the
value stored at the key for objects and None for every other variant. -/
def Json.get : Json → String → Option Json
  | Json.obj kvs, k => kvs.lookup k
  | _, _ => none

/-- String projection on a JSON value: the serde_json Value as_str method. -/
def Json.as_str : Json → Option String
  | Json.str s => some s
  | _ => none

/-- The BodyError enum of envelope.rs (lines 31-39). -/
inductive BodyError where
  | InvalidNumberOfLines : BodyError
  | InvalidHeaderJson : String → BodyError
  | MissingDsnKeyInHeader : BodyError
  | InvalidDsnValue : BodyError
  | InvalidProjectId : BodyError
  | EmptyBody : BodyError
deriving DecidableEq

/-- The Display implementation for BodyError (envelope.rs lines 41-58). -/
def BodyError.message : BodyError → String
  | BodyError.InvalidNumberOfLines =>
      "Invalid number of lines in request body. Must have at least 2 lines (header and at least one item)."
  | BodyError.MissingDsnKeyInHeader => "The dsn key is missing from the header"
  | BodyError.InvalidHeaderJson e => "Failed to parse header json : " ++ e
  | BodyError.InvalidProjectId => "Unauthorized project ID"
  | BodyError.InvalidDsnValue => "Failed to parse dsn value"
  | BodyError.EmptyBody => "Empty request body"

/-- The errors escaping try_new_from_body. The source returns anyhow Error,
which wraps either a BodyError or, via the question-mark operator applied to
Dsn::from_str on line 130, the underlying sentry_types DSN parse error. -/
inductive AError where
  | body : BodyError → AError
  | dsnParse : String → AError
deriving DecidableEq

/-- Modelled from the spec: the sentry_types Dsn value (the sentry_types crate
is a library collaborator, not part of this tree), holding the components of
the destination descriptor grammar scheme://public_key@host[:port]/project_id. -/
structure Dsn where
  scheme : String
  public_key : String
  host : String
  port : Option Nat
  project_id : String
deriving DecidableEq

/-- Split a character list at the first occurrence of a separator character,
returning the parts before and after it. -/
def splitFirst (c : Char) : List Char → Option (List Char × List Char)
  | [] => none
  | x :: xs =>
    if x = c then some ([], xs)
    else (splitFirst c xs).map (fun p => (x :: p.1, p.2))

/-- Parse a non-empty all-digit character list as a decimal number. -/
def parsePort (l : List Char) : Option Nat :=
  if l.isEmpty then none
  else if l.all Char.isDigit then
    some (l.foldl (fun acc c => acc * 10 + (c.toNat - '0'.toNat)) 0)
  else none

/-- Modelled from the spec: the final component checks of the sentry_types DSN
parser; the project id must be a non-empty identifier (alphanumeric). -/
def Dsn.mkChecked (schemeCs keyCs hostCs : List Char) (port : Option Nat)
    (projectCs : List Char) : Except String Dsn :=
  if projectCs.isEmpty then Except.error "invalid dsn: empty project id"
  else if projectCs.all (fun c => c.isAlphanum) then
    Except.ok { scheme := String.mk schemeCs, public_key := String.mk keyCs,
                host := String.mk hostCs, port := port,
                project_id := String.mk projectCs }
  else Except.error "invalid dsn: invalid project id"

/-- Modelled from the spec: Dsn::from_str of the sentry_types collaborator,
parsing the destination descriptor grammar
scheme://public_key@host[:port]/project_id, where scheme, public key and host
must be non-empty and the path segment must parse to the project id. -/
def Dsn.from_str (s : String) : Except String Dsn :=
  match splitFirst ':' s.data with
  | none => Except.error "invalid dsn: no scheme separator"
  | some (schemeCs, rest) =>
    match rest with
    | '/' :: '/' :: afterScheme =>
      if schemeCs.isEmpty then Except.error "invalid dsn: empty scheme"
      else
        match splitFirst '@' afterScheme with
        | none => Except.error "invalid dsn: missing public key"
        | some (keyCs, hostInfo) =>
          if keyCs.isEmpty then Except.error "invalid dsn: empty public key"
          else
            match splitFirst '/' hostInfo with
            | none => Except.error "invalid dsn: missing project id"
            | some (authority, projectCs) =>
              match splitFirst ':' authority with
              | none =>
                if authority.isEmpty then Except.error "invalid dsn: empty host"
                else Dsn.mkChecked schemeCs keyCs authority none projectCs
              | some (hostCs, portCs) =>
                if hostCs.isEmpty then Except.error "invalid dsn: empty host"
                else
                  match parsePort portCs with
                  | none => Except.error "invalid dsn: invalid port"
                  | some portNum => Dsn.mkChecked schemeCs keyCs hostCs (some portNum) projectCs
    | _ => Except.error "invalid dsn: expected scheme separator"

/-- Modelled from the spec: the textual port suffix of a DSN, empty when no
port is present. -/
def Dsn.port_suffix (d : Dsn) : String :=
  match d.port with
  | none => ""
  | some p => ":" ++ toString p

/-- Modelled from the spec: the derived ingestion URL of the sentry_types Dsn,
scheme://host[:port]/api/project_id/envelope/ . -/
def Dsn.envelope_api_url (d : Dsn) : String :=
  d.scheme ++ "://" ++ d.host ++ d.port_suffix ++ "/api/" ++ d.project_id ++ "/envelope/"

/-- The SentryEnvelope struct of envelope.rs (lines 22-26). -/
structure SentryEnvelope where
  raw_body : Bytes
  dsn : Dsn
deriving DecidableEq

/-- An allowed host entry: the config Host type is a newtype over a string,
accessed through its field 0 in envelope.rs line 77. -/
structure Host where
  val : String
deriving DecidableEq

/-- Iterator position over the body bytes: index of the first byte satisfying
the predicate (envelope.rs line 112). -/
def position (pred : Nat → Bool) : Bytes → Option Nat
  | [] => none
  | b :: rest => if pred b then some 0 else (position pred rest).map (fun i => i + 1)

/-- Lines 116-140 of envelope.rs: decode the header bytes as UTF-8 (mapping
failure to InvalidHeaderJson carrying the io-style message), parse the text as
JSON (mapping failure to InvalidHeaderJson with the parser's message), look up
the dsn field (absence is MissingDsnKeyInHeader), require it to be a string
(otherwise InvalidDsnValue) and parse it as a Dsn, propagating the DSN parse
error itself on grammar mismatch. The UTF-8 decoder and the JSON parser are the
std and serde_json collaborators, passed as parameters. -/
def parseHeaderLine (utf8Decode : Bytes → Option String)
    (jsonParse : String → Except String Json) (header_bytes : Bytes) :
    Except AError Dsn :=
  match utf8Decode header_bytes with
  | none => Except.error (AError.body (BodyError.InvalidHeaderJson "Header contains invalid UTF-8"))
  | some header_str =>
    match jsonParse header_str with
    | Except.error e => Except.error (AError.body (BodyError.InvalidHeaderJson e))
    | Except.ok header =>
      match header.get "dsn" with
      | some dsnVal =>
        match dsnVal.as_str with
        | some dsn_str =>
          match Dsn.from_str dsn_str with
          | Except.ok dsn => Except.ok dsn
          | Except.error e => Except.error (AError.dsnParse e)
        | none => Except.error (AError.body BodyError.InvalidDsnValue)
      | none => Except.error (AError.body BodyError.MissingDsnKeyInHeader)

/-- SentryEnvelope::try_new_from_body (envelope.rs lines 106-141): reject an
empty body, find the first newline byte (rejecting bodies without one), run the
header-line pipeline on the bytes before the newline, and on success return an
envelope holding the entire original body together with the parsed DSN. -/
def SentryEnvelope.try_new_from_body (utf8Decode : Bytes → Option String)
    (jsonParse : String → Except String Json) (body : Bytes) :
    Except AError SentryEnvelope :=
  if body.isEmpty then Except.error (AError.body BodyError.EmptyBody)
  else
    match position (fun b => b == 10) body with
    | none => Except.error (AError.body BodyError.InvalidNumberOfLines)
    | some header_end =>
      match parseHeaderLine utf8Decode jsonParse (body.take header_end) with
      | Except.ok dsn => Except.ok { raw_body := body, dsn := dsn }
      | Except.error e => Except.error e

/-- SentryEnvelope::dsn_host_is_valid (envelope.rs lines 74-78): the DSN host
rendered without port must be string-equal to some configured host. -/
def SentryEnvelope.dsn_host_is_valid (e : SentryEnvelope) (host : List Host) : Bool :=
  let envelope_host := e.dsn.host
  host.any (fun x => x.val == envelope_host)

/-- An outbound HTTP request as assembled by forward (envelope.rs lines 84-89). -/
structure OutRequest where
  method : String
  uri : String
  contentType : String
  body : Bytes
deriving DecidableEq

/-- A response from the destination, abstracted to its status code; forward
never inspects it. -/
structure HttpResponse where
  status : Nat
deriving DecidableEq

/-- The request built by SentryEnvelope::forward (envelope.rs lines 84-89):
POST, the DSN envelope API URL with the sentry_key query parameter appended,
the sentry envelope content type, and the raw body as the request body. -/
def SentryEnvelope.forward_request (e : SentryEnvelope) : OutRequest :=
  { method := "POST"
    uri := e.dsn.envelope_api_url ++ "?sentry_key=" ++ e.dsn.public_key
    contentType := "application/x-sentry-envelope"
    body := e.raw_body }

/-- SentryEnvelope::forward (envelope.rs lines 83-100): build the request, send
it once through the transport (the isahc collaborator, passed as a parameter),
and map any response to Ok and a transport failure to the error itself. The
second component records the requests actually issued. -/
def SentryEnvelope.forward (e : SentryEnvelope)
    (transport : OutRequest → Except String HttpResponse) :
    Except String Unit × List OutRequest :=
  let request := e.forward_request
  match transport request with
  | Except.ok _ => (Except.ok (), [request])
  | Except.error err => (Except.error err, [request])

/-- The gate errors of the request handler. InvalidProjectId corresponds to
BodyError::InvalidProjectId of envelope.rs line 37; InvalidHost corresponds to
the handler's HeaderError::InvalidHost asserted by the tests. -/
inductive GateError where
  | InvalidProjectId : GateError
  | InvalidHost : GateError
deriving DecidableEq

/-- Modelled from the spec: the request handler / host-project gate lives in a
source file (the server module) that is not part of this tree; per the spec the
gate checks project-id membership first, failing with InvalidProjectId, and
then host membership, failing with InvalidHost. -/
def authorize (e : SentryEnvelope) (allowed_hosts : List Host)
    (allowed_project_ids : List String) : Except GateError Unit :=
  if allowed_project_ids.contains e.dsn.project_id then
    if e.dsn_host_is_valid allowed_hosts then Except.ok ()
    else Except.error GateError.InvalidHost
  else Except.error GateError.InvalidProjectId

/-- The bytes of the body through and including its first newline, when the
body has one: the part of the input the parse outcome may depend on. -/
def headerThroughNewline (body : Bytes) : Option Bytes :=
  match position (fun b => b == 10) body with
  | none => none
  | some i => some (body.take (i + 1))

/-- Two parse outcomes agree when they fail with the same error or succeed
with the same descriptor (the stored raw bodies may differ). -/
def sameOutcome : Except AError SentryEnvelope → Except AError SentryEnvelope → Prop
  | Except.error e1, Except.error e2 => e1 = e2
  | Except.ok a, Except.ok b => a.dsn = b.dsn
  | _, _ => False

/-- Skip JSON whitespace characters. -/
def skipWs : List Char → List Char
  | [] => []
  | c :: rest =>
    if c = ' ' ∨ c = '\t' ∨ c = '\n' ∨ c = '\r' then skipWs rest else c :: rest

/-- The opening brace character. -/
def lbrace : Char := Char.ofNat 123

/-- The closing brace character. -/
def rbrace : Char := Char.ofNat 125

/-- Read a JSON string literal body up to its closing quote. Escape sequences
are not needed by the headers considered here and are rejected. -/
def readStringLit : List Char → Except String (String × List Char)
  | [] => Except.error "json: unterminated string"
  | c :: rest =>
    if c = '\"' then Except.ok ("", rest)
    else if c = '\\' then Except.error "json: string escapes unsupported"
    else
      match readStringLit rest with
      | Except.ok (s, rem) => Except.ok (String.mk (c :: s.data), rem)
      | Except.error e => Except.error e

/-- Read a maximal run of decimal digits. -/
def readDigits : List Char → (List Char × List Char)
  | [] => ([], [])
  | c :: rest =>
    if c.isDigit then
      let (ds, rem) := readDigits rest
      (c :: ds, rem)
    else ([], c :: rest)

/-- Interpret a digit run as a natural number. -/
def digitsToNat (ds : List Char) : Nat :=
  ds.foldl (fun acc c => acc * 10 + (c.toNat - '0'.toNat)) 0

mutual

/-- Reference stand-in for the serde_json collaborator: fuel-indexed parser for
one JSON value, returning the value and the remaining characters. -/
def parseVal : Nat → List Char → Except String (Json × List Char)
  | 0, _ => Except.error "json: out of fuel"
  | Nat.succ fuel, input =>
    match skipWs input with
    | [] => Except.error "json: unexpected end"
    | c :: rest =>
      if c = lbrace then
        match skipWs rest with
        | c2 :: rest2 =>
          if c2 = rbrace then Except.ok (Json.obj [], rest2)
          else
            match parseMembers fuel (c2 :: rest2) with
            | Except.ok (kvs, rem) => Except.ok (Json.obj kvs, rem)
            | Except.error e => Except.error e
        | [] => Except.error "json: unterminated object"
      else if c = '[' then
        match skipWs rest with
        | c2 :: rest2 =>
          if c2 = ']' then Except.ok (Json.arr [], rest2)
          else
            match parseElems fuel (c2 :: rest2) with
            | Except.ok (vs, rem) => Except.ok (Json.arr vs, rem)
            | Except.error e => Except.error e
        | [] => Except.error "json: unterminated array"
      else if c = '\"' then
        match readStringLit rest with
        | Except.ok (s, rem) => Except.ok (Json.str s, rem)
        | Except.error e => Except.error e
      else if c = 't' then
        match rest with
        | 'r' :: 'u' :: 'e' :: rem => Except.ok (Json.bool true, rem)
        | _ => Except.error "json: invalid literal"
      else if c = 'f' then
        match rest with
        | 'a' :: 'l' :: 's' :: 'e' :: rem => Except.ok (Json.bool false, rem)
        | _ => Except.error "json: invalid literal"
      else if c = 'n' then
        match rest with
        | 'u' :: 'l' :: 'l' :: rem => Except.ok (Json.null, rem)
        | _ => Except.error "json: invalid literal"
      else if c = '-' then
        match readDigits rest with
        | ([], _) => Except.error "json: invalid number"
        | (ds, rem) => Except.ok (Json.num (-(Int.ofNat (digitsToNat ds))), rem)
      else if c.isDigit then
        match readDigits (c :: rest) with
        | (ds, rem) => Except.ok (Json.num (Int.ofNat (digitsToNat ds)), rem)
      else Except.error "json: unexpected character"

/-- Reference parser for the members of a JSON object, after the opening
brace, for a non-empty member list. -/
def parseMembers : Nat → List Char → Except String (List (String × Json) × List Char)
  | 0, _ => Except.error "json: out of fuel"
  | Nat.succ fuel, input =>
    match skipWs input with
    | '\"' :: rest =>
      match readStringLit rest with
      | Except.error e => Except.error e
      | Except.ok (key, rem) =>
        match skipWs rem with
        | ':' :: rem2 =>
          match parseVal fuel rem2 with
          | Except.error e => Except.error e
          | Except.ok (v, rem3) =>
            match skipWs rem3 with
            | ',' :: rem4 =>
              match parseMembers fuel rem4 with
              | Except.ok (kvs, rem5) => Except.ok ((key, v) :: kvs, rem5)
              | Except.error e => Except.error e
            | c :: rem4 =>
              if c = rbrace then Except.ok ([(key, v)], rem4)
              else Except.error "json: expected comma or closing brace"
            | [] => Except.error "json: unterminated object"
        | _ => Except.error "json: expected colon"
    | _ => Except.error "json: expected string key"

/-- Reference parser for the elements of a JSON array, after the opening
bracket, for a non-empty element list. -/
def parseElems : Nat → List Char → Except String (List Json × List Char)
  | 0, _ => Except.error "json: out of fuel"
  | Nat.succ fuel, input =>
    match parseVal fuel input with
    | Except.error e => Except.error e
    | Except.ok (v, rem) =>
      match skipWs rem with
      | ',' :: rem2 =>
        match parseElems fuel rem2 with
        | Except.ok (vs, rem3) => Except.ok (v :: vs, rem3)
        | Except.error e => Except.error e
      | ']' :: rem2 => Except.ok ([v], rem2)
      | _ => Except.error "json: expected comma or closing bracket"

end

/-- Reference instantiation of the serde_json collaborator: parse a complete
JSON value with nothing but whitespace after it. -/
def jsonParseRef (s : String) : Except String Json :=
  match parseVal (s.length + 1) s.data with
  | Except.error e => Except.error e
  | Except.ok (v, rem) =>
    match skipWs rem with
    | [] => Except.ok v
    | _ => Except.error "json: trailing characters"

/-- Reference instantiation of std UTF-8 validation: decode a byte sequence,
rejecting malformed, truncated, overlong, surrogate and out-of-range
sequences. -/
def decodeUtf8 : Bytes → Option (List Char)
  | [] => some []
  | b :: rest =>
    if b < 128 then (decodeUtf8 rest).map (fun cs => Char.ofNat b :: cs)
    else if b < 192 then none
    else if b < 224 then
      match rest with
      | b2 :: rest2 =>
        if 128 ≤ b2 ∧ b2 < 192 then
          let cp := (b - 192) * 64 + (b2 - 128)
          if cp < 128 then none
          else (decodeUtf8 rest2).map (fun cs => Char.ofNat cp :: cs)
        else none
      | [] => none
    else if b < 240 then
      match rest with
      | b2 :: b3 :: rest3 =>
        if (128 ≤ b2 ∧ b2 < 192) ∧ (128 ≤ b3 ∧ b3 < 192) then
          let cp := (b - 224) * 4096 + (b2 - 128) * 64 + (b3 - 128)
          if cp < 2048 ∨ (55296 ≤ cp ∧ cp < 57344) then none
          else (decodeUtf8 rest3).map (fun cs => Char.ofNat cp :: cs)
        else none
      | _ => none
    else if b < 248 then
      match rest with
      | b2 :: b3 :: b4 :: rest4 =>
        if (128 ≤ b2 ∧ b2 < 192) ∧ (128 ≤ b3 ∧ b3 < 192) ∧ (128 ≤ b4 ∧ b4 < 192) then
          let cp := (b - 240) * 262144 + (b2 - 128) * 4096 + (b3 - 128) * 64 + (b4 - 128)
          if cp < 65536 ∨ 1114111 < cp then none
          else (decodeUtf8 rest4).map (fun cs => Char.ofNat cp :: cs)
        else none
      | _ => none
    else none

/-- Reference UTF-8 decoder packaged as the parameter shape used by
try_new_from_body. -/
def utf8DecodeRef (b : Bytes) : Option String :=
  (decodeUtf8 b).map String.mk

/-- The bytes of an ASCII string (all the concrete request bodies used in the
concrete checks are ASCII, where UTF-8 coincides with the code points). -/
def asciiBytes (s : String) : Bytes := s.data.map Char.toNat

/-- A concrete destination descriptor used by the concrete checks. -/
def sampleDsn : Dsn :=
  { scheme := "http", public_key := "public", host := "host", port := none, project_id := "5" }

/-- A concrete well-formed request body: a header carrying a dsn, one item line. -/
def sampleBody : Bytes := asciiBytes "\x7b\"dsn\":\"http://public@host/5\"\x7d\n\x7b\"type\":\"session\"\x7d"

/-- The envelope parsed from the concrete well-formed body. -/
def sampleEnvelope : SentryEnvelope := { raw_body := sampleBody, dsn := sampleDsn }

/-- A concrete body whose first newline is its last byte: header line only,
no item content after the newline. -/
def headerOnlyBody : Bytes := asciiBytes "\x7b\"dsn\":\"http://public@host/5\"\x7d\n"

/-- A concrete body whose dsn field is a string that does not match the
descriptor grammar. -/
def badDsnBody : Bytes := asciiBytes "\x7b\"dsn\":\"notadsn\"\x7d\nx"

/-- A concrete body whose dsn field is a JSON number rather than a string. -/
def numDsnBody : Bytes := asciiBytes "\x7b\"dsn\":42\x7d\nx"

/-- A concrete descriptor whose host and project id are both outside the
concrete allow-lists below. -/
def strayDsn : Dsn :=
  { scheme := "https", public_key := "public", host := "evil.example.com", port := none, project_id := "9" }

/-- An envelope carrying the stray descriptor. -/
def strayEnvelope : SentryEnvelope := { raw_body := asciiBytes "h\ni", dsn := strayDsn }

/-- A concrete host allow-list. -/
def sampleHosts : List Host := [{ val := "host" }]

/-- A concrete project-id allow-list. -/
def sampleProjectIds : List String := ["5"]

/-- A concrete descriptor whose host is outside the concrete host allow-list
while its project id is allowed. -/
def wrongHostDsn : Dsn :=
  { scheme := "https", public_key := "public", host := "not_a_valid_host.example.com",
    port := none, project_id := "5" }

/-- An envelope carrying the wrong-host descriptor. -/
def wrongHostEnvelope : SentryEnvelope := { raw_body := asciiBytes "h\ni", dsn := wrongHostDsn }

/-- A body with the same header line as the sample body but a different tail:
two trailing bytes, the first of which (255) is not valid UTF-8. -/
def altTailBody : Bytes := headerOnlyBody ++ [255, 88]

/-- Helper: a successful parse stores exactly the original bytes and comes
from running the header pipeline on the bytes before the first newline. -/
theorem try_new_ok_elim {ud : Bytes → Option String} {jp : String → Except String Json}
    {body : Bytes} {env : SentryEnvelope}
    (h : SentryEnvelope.try_new_from_body ud jp body = Except.ok env) :
    env.raw_body = body ∧ ∃ i, position (fun b => b == 10) body = some i ∧
      parseHeaderLine ud jp (body.take i) = Except.ok env.dsn := by
  unfold SentryEnvelope.try_new_from_body at h
  split at h
  · exact absurd h (by simp)
  · split at h
    · exact absurd h (by simp)
    · rename_i i hpos
      split at h
      · rename_i dsn hph
        simp only [Except.ok.injEq] at h
        subst h
        exact ⟨rfl, i, hpos, hph⟩
      · exact absurd h (by simp)

/-- C1: parsing preserves the input bytes verbatim in raw_body, and the
outbound POST built by forward carries exactly those bytes as its body, so the
destination receives the original request body byte for byte. -/
theorem parse_roundtrip_forward_body (ud : Bytes → Option String)
    (jp : String → Except String Json) (body : Bytes) (env : SentryEnvelope)
    (h : SentryEnvelope.try_new_from_body ud jp body = Except.ok env) :
    env.raw_body = body ∧ env.forward_request.body = body := by
  obtain ⟨hraw, -⟩ := try_new_ok_elim h
  exact ⟨hraw, hraw⟩

/-- C1 witness: the concrete well-formed body parses to the sample envelope
and forward would post exactly those bytes. -/
theorem parse_roundtrip_forward_body_witness :
    sampleEnvelope.raw_body = sampleBody ∧ sampleEnvelope.forward_request.body = sampleBody :=
  parse_roundtrip_forward_body utf8DecodeRef jsonParseRef sampleBody sampleEnvelope (by rfl)

/-- C2: forward issues exactly one POST, to the descriptor's derived ingestion
URL (scheme, host, optional port suffix, path /api/project_id/envelope/)
followed by the sentry_key query parameter, with the sentry envelope content
type. -/
theorem forward_request_shape (e : SentryEnvelope)
    (transport : OutRequest → Except String HttpResponse) :
    (e.forward transport).2 =
      [{ method := "POST"
         uri := e.dsn.scheme ++ "://" ++ e.dsn.host ++ e.dsn.port_suffix ++ "/api/" ++
           e.dsn.project_id ++ "/envelope/" ++ "?sentry_key=" ++ e.dsn.public_key
         contentType := "application/x-sentry-envelope"
         body := e.raw_body }] := by
  have hreq : ({ method := "POST",
                 uri := e.dsn.scheme ++ "://" ++ e.dsn.host ++ e.dsn.port_suffix ++ "/api/" ++
                   e.dsn.project_id ++ "/envelope/" ++ "?sentry_key=" ++ e.dsn.public_key,
                 contentType := "application/x-sentry-envelope",
                 body := e.raw_body } : OutRequest) = e.forward_request := rfl
  rw [hreq]
  cases hr : transport e.forward_request <;> simp [SentryEnvelope.forward, hr]

/-- C6: dsn_host_is_valid holds exactly when some configured host string is
equal to the descriptor's host string (exact string equality). -/
theorem dsn_host_is_valid_iff (e : SentryEnvelope) (hosts : List Host) :
    e.dsn_host_is_valid hosts = true ↔ ∃ h ∈ hosts, h.val = e.dsn.host := by
  simp [SentryEnvelope.dsn_host_is_valid, List.any_eq_true]

/-- C7: forward performs exactly one request attempt; it returns Ok whenever
the transport delivers any response, whatever its status, and surfaces exactly
the transport error when the send fails. -/
theorem forward_single_attempt (e : SentryEnvelope)
    (transport : OutRequest → Except String HttpResponse) :
    (e.forward transport).2 = [e.forward_request] ∧
    ((e.forward transport).1 = Except.ok () ↔
      ∃ r, transport e.forward_request = Except.ok r) ∧
    (∀ msg, transport e.forward_request = Except.error msg →
      (e.forward transport).1 = Except.error msg) := by
  cases hr : transport e.forward_request <;> simp [SentryEnvelope.forward, hr]

/-- C7 witness: with a transport answering a non-2xx response (status 500),
forward still returns Ok. -/
theorem forward_single_attempt_witness :
    (sampleEnvelope.forward (fun _ => Except.ok { status := 500 })).1 = Except.ok () :=
  ((forward_single_attempt sampleEnvelope (fun _ => Except.ok { status := 500 })).2.1).mpr
    ⟨{ status := 500 }, rfl⟩

/-- Helper: a non-nil byte list is not isEmpty. -/
theorem not_isEmpty_of_ne_nil {body : Bytes} (h : body ≠ []) : ¬ body.isEmpty = true := by
  cases body with
  | nil => exact absurd rfl h
  | cons x xs => simp

/-- Helper: once the first newline is located, the parse outcome is the
header pipeline applied to the bytes before it, with the whole body stored on
success. -/
theorem try_new_eq_of_position {ud : Bytes → Option String}
    {jp : String → Except String Json} {body : Bytes} {i : Nat}
    (hpos : position (fun b => b == 10) body = some i) :
    SentryEnvelope.try_new_from_body ud jp body =
      (match parseHeaderLine ud jp (body.take i) with
       | Except.ok dsn => Except.ok { raw_body := body, dsn := dsn }
       | Except.error e => Except.error e) := by
  have hne : body ≠ [] := by
    intro hb
    rw [hb] at hpos
    simp [position] at hpos
  unfold SentryEnvelope.try_new_from_body
  rw [if_neg (not_isEmpty_of_ne_nil hne), hpos]

/-- Helper: a non-empty body without a newline is rejected with
InvalidNumberOfLines. -/
theorem try_new_no_newline {ud : Bytes → Option String}
    {jp : String → Except String Json} {body : Bytes} (hne : body ≠ [])
    (hpos : position (fun b => b == 10) body = none) :
    SentryEnvelope.try_new_from_body ud jp body =
      Except.error (AError.body BodyError.InvalidNumberOfLines) := by
  unfold SentryEnvelope.try_new_from_body
  rw [if_neg (not_isEmpty_of_ne_nil hne), hpos]

/-- Helper: the position of a found byte is an index into the list. -/
theorem position_lt_length (pred : Nat → Bool) :
    ∀ (b : Bytes) (i : Nat), position pred b = some i → i < b.length := by
  intro b
  induction b with
  | nil => intro i h; simp [position] at h
  | cons x xs ih =>
    intro i h
    cases hx : pred x with
    | true =>
      simp [position, hx] at h
      simp [← h]
    | false =>
      simp [position, hx] at h
      obtain ⟨j, hj, hji⟩ := h
      have := ih j hj
      simp only [List.length_cons]
      omega

/-- Helper: the recorded header segment of a body determines the newline
position and the bytes before it. -/
theorem headerThroughNewline_elim {body p : Bytes}
    (h : headerThroughNewline body = some p) :
    position (fun b => b == 10) body = some (p.length - 1) ∧
      body.take (p.length - 1) = p.take (p.length - 1) := by
  unfold headerThroughNewline at h
  cases hpos : position (fun b => b == 10) body with
  | none => rw [hpos] at h; simp at h
  | some i =>
    rw [hpos] at h
    simp only [Option.some.injEq] at h
    subst h
    have hi := position_lt_length _ body i hpos
    have hlen : (body.take (i + 1)).length = i + 1 := by
      rw [List.length_take]
      omega
    rw [hlen]
    constructor
    · simp [hpos]
    · rw [List.take_take]
      simp

/-- C9: a non-empty body whose header line decodes and parses as a JSON object
without a dsn field is rejected with MissingDsnKeyInHeader, whose canonical
message is exactly the expected string. -/
theorem missing_dsn_key (ud : Bytes → Option String)
    (jp : String → Except String Json) (body : Bytes) (i : Nat) (hdr : String)
    (kvs : List (String × Json))
    (hpos : position (fun b => b == 10) body = some i)
    (hud : ud (body.take i) = some hdr)
    (hjp : jp hdr = Except.ok (Json.obj kvs))
    (hkey : kvs.lookup "dsn" = none) :
    SentryEnvelope.try_new_from_body ud jp body =
      Except.error (AError.body BodyError.MissingDsnKeyInHeader) ∧
    BodyError.MissingDsnKeyInHeader.message = "The dsn key is missing from the header" := by
  refine ⟨?_, rfl⟩
  have hph : parseHeaderLine ud jp (body.take i) =
      Except.error (AError.body BodyError.MissingDsnKeyInHeader) := by
    simp only [parseHeaderLine, hud, hjp, Json.get, hkey]
  rw [try_new_eq_of_position hpos, hph]

/-- C9 witness: the concrete body with the empty-object header is rejected
with MissingDsnKeyInHeader and the exact message. -/
theorem missing_dsn_key_witness :
    SentryEnvelope.try_new_from_body utf8DecodeRef jsonParseRef (asciiBytes "\x7b\x7d\nX") =
      Except.error (AError.body BodyError.MissingDsnKeyInHeader) ∧
    BodyError.MissingDsnKeyInHeader.message = "The dsn key is missing from the header" :=
  missing_dsn_key utf8DecodeRef jsonParseRef (asciiBytes "\x7b\x7d\nX") 2 "\x7b\x7d" []
    (by rfl) (by rfl) (by rfl) (by rfl)

/-- C3 counterexample: a dsn string that does not match the descriptor grammar
makes parsing fail with the propagated DSN parse error, which is not the
InvalidDsnValue error kind, so the client does not receive the canonical
InvalidDsnValue message in that case. -/
theorem invalid_dsn_value_counterexample :
    SentryEnvelope.try_new_from_body utf8DecodeRef jsonParseRef badDsnBody =
      Except.error (AError.dsnParse "invalid dsn: no scheme separator") ∧
    AError.dsnParse "invalid dsn: no scheme separator" ≠
      AError.body BodyError.InvalidDsnValue :=
  ⟨rfl, fun h => AError.noConfusion h⟩

/-- C3 (amended): when the dsn field is present but not a JSON string, parsing
fails with InvalidDsnValue, whose canonical message is exactly the expected
string; when the field is a string that does not match the descriptor grammar,
parsing fails by propagating the underlying DSN parse error itself, not the
InvalidDsnValue kind. -/
theorem invalid_dsn_value_errors (ud : Bytes → Option String)
    (jp : String → Except String Json) (body : Bytes) (i : Nat) (hdr : String)
    (h : Json) (v : Json)
    (hpos : position (fun b => b == 10) body = some i)
    (hud : ud (body.take i) = some hdr)
    (hjp : jp hdr = Except.ok h)
    (hget : h.get "dsn" = some v) :
    (v.as_str = none →
      SentryEnvelope.try_new_from_body ud jp body =
        Except.error (AError.body BodyError.InvalidDsnValue) ∧
      BodyError.InvalidDsnValue.message = "Failed to parse dsn value") ∧
    (∀ s e, v.as_str = some s → Dsn.from_str s = Except.error e →
      SentryEnvelope.try_new_from_body ud jp body = Except.error (AError.dsnParse e)) := by
  constructor
  · intro hstr
    refine ⟨?_, rfl⟩
    have hph : parseHeaderLine ud jp (body.take i) =
        Except.error (AError.body BodyError.InvalidDsnValue) := by
      simp only [parseHeaderLine, hud, hjp, hget, hstr]
    rw [try_new_eq_of_position hpos, hph]
  · intro s e hstr hdsn
    have hph : parseHeaderLine ud jp (body.take i) =
        Except.error (AError.dsnParse e) := by
      simp only [parseHeaderLine, hud, hjp, hget, hstr, hdsn]
    rw [try_new_eq_of_position hpos, hph]

/-- C3 witness: the concrete body with the non-grammatical dsn string is
rejected with the propagated DSN parse error. -/
theorem invalid_dsn_value_errors_witness :
    SentryEnvelope.try_new_from_body utf8DecodeRef jsonParseRef badDsnBody =
      Except.error (AError.dsnParse "invalid dsn: no scheme separator") :=
  (invalid_dsn_value_errors utf8DecodeRef jsonParseRef badDsnBody 17
      "\x7b\"dsn\":\"notadsn\"\x7d"
      (Json.obj [("dsn", Json.str "notadsn")]) (Json.str "notadsn")
      (by rfl) (by rfl) (by rfl) (by rfl)).2
    "notadsn" "invalid dsn: no scheme separator" rfl rfl

/-- C4: the gate checks the project id first: whenever the descriptor's
project id is outside the allow-list, authorization fails with
InvalidProjectId, whatever the host. -/
theorem project_id_checked_first (e : SentryEnvelope) (hosts : List Host)
    (ids : List String) (h : ids.contains e.dsn.project_id = false) :
    authorize e hosts ids = Except.error GateError.InvalidProjectId := by
  unfold authorize
  rw [h]
  simp

/-- C4 witness: the stray envelope, whose project id 9 is outside the concrete
allow-list (and whose host is also outside its allow-list), is rejected with
InvalidProjectId. -/
theorem project_id_checked_first_witness :
    authorize strayEnvelope sampleHosts sampleProjectIds =
      Except.error GateError.InvalidProjectId :=
  project_id_checked_first strayEnvelope sampleHosts sampleProjectIds (by rfl)

/-- C5 counterexample: a request whose descriptor host is outside the host
allow-list is rejected with InvalidProjectId, not InvalidHost, when its
project id is also outside the project allow-list, because the gate checks the
project id first. -/
theorem invalid_host_counterexample :
    strayEnvelope.dsn_host_is_valid sampleHosts = false ∧
    authorize strayEnvelope sampleHosts sampleProjectIds =
      Except.error GateError.InvalidProjectId ∧
    GateError.InvalidProjectId ≠ GateError.InvalidHost :=
  ⟨rfl, rfl, fun h => GateError.noConfusion h⟩

/-- C5 (amended): a request with a syntactically valid header whose descriptor
host is outside the host allow-list is rejected with InvalidHost provided its
project id is in the project allow-list; when the project id is also outside
its allow-list the rejection is InvalidProjectId, since the project-id check
runs first. -/
theorem invalid_host_when_project_allowed (e : SentryEnvelope) (hosts : List Host)
    (ids : List String) (hh : e.dsn_host_is_valid hosts = false)
    (hp : ids.contains e.dsn.project_id = true) :
    authorize e hosts ids = Except.error GateError.InvalidHost := by
  unfold authorize
  rw [hp, hh]
  simp

/-- C5 witness: the wrong-host envelope, whose project id 5 is allowed but
whose host is not, is rejected with InvalidHost. -/
theorem invalid_host_when_project_allowed_witness :
    authorize wrongHostEnvelope sampleHosts sampleProjectIds =
      Except.error GateError.InvalidHost :=
  invalid_host_when_project_allowed wrongHostEnvelope sampleHosts sampleProjectIds
    (by rfl) (by rfl)

/-- C8 counterexample: a body whose first newline is its final byte parses
successfully even though no content follows the first newline, so an envelope
need not contain an item line after the header. -/
theorem item_line_not_required :
    SentryEnvelope.try_new_from_body utf8DecodeRef jsonParseRef headerOnlyBody =
      Except.ok { raw_body := headerOnlyBody, dsn := sampleDsn } ∧
    headerThroughNewline headerOnlyBody = some headerOnlyBody :=
  ⟨rfl, rfl⟩

/-- C8 (amended): every successfully constructed envelope stores the input as
its raw_body, which is non-empty and contains at least one newline terminating
the header line; content after the first newline is not required. -/
theorem envelope_invariant (ud : Bytes → Option String)
    (jp : String → Except String Json) (body : Bytes) (env : SentryEnvelope)
    (h : SentryEnvelope.try_new_from_body ud jp body = Except.ok env) :
    env.raw_body = body ∧ env.raw_body ≠ [] ∧
      position (fun b => b == 10) env.raw_body ≠ none := by
  obtain ⟨hraw, i, hpos, -⟩ := try_new_ok_elim h
  refine ⟨hraw, ?_, ?_⟩
  · rw [hraw]
    intro hnil
    rw [hnil] at hpos
    simp [position] at hpos
  · rw [hraw, hpos]
    simp

/-- C8 witness: the invariant on the concrete well-formed body. -/
theorem envelope_invariant_witness :
    sampleEnvelope.raw_body = sampleBody ∧ sampleEnvelope.raw_body ≠ [] ∧
      position (fun b => b == 10) sampleEnvelope.raw_body ≠ none :=
  envelope_invariant utf8DecodeRef jsonParseRef sampleBody sampleEnvelope (by rfl)

/-- C10: the parse outcome is a function of the bytes through the first
newline: two non-empty bodies with identical header segments either fail with
the same error or both succeed with the same descriptor, whatever the bytes
after the newline (which are never inspected). -/
theorem parse_depends_only_on_header (ud : Bytes → Option String)
    (jp : String → Except String Json) (b1 b2 : Bytes)
    (h1 : b1 ≠ []) (h2 : b2 ≠ [])
    (hp : headerThroughNewline b1 = headerThroughNewline b2) :
    sameOutcome (SentryEnvelope.try_new_from_body ud jp b1)
      (SentryEnvelope.try_new_from_body ud jp b2) := by
  cases hh1 : headerThroughNewline b1 with
  | none =>
    have hh2 : headerThroughNewline b2 = none := by rw [← hp]; exact hh1
    have hp1 : position (fun b => b == 10) b1 = none := by
      unfold headerThroughNewline at hh1
      cases hq : position (fun b => b == 10) b1 with
      | none => rfl
      | some i => rw [hq] at hh1; simp at hh1
    have hp2 : position (fun b => b == 10) b2 = none := by
      unfold headerThroughNewline at hh2
      cases hq : position (fun b => b == 10) b2 with
      | none => rfl
      | some i => rw [hq] at hh2; simp at hh2
    rw [try_new_no_newline h1 hp1, try_new_no_newline h2 hp2]
    simp [sameOutcome]
  | some p =>
    have hh2 : headerThroughNewline b2 = some p := by rw [← hp]; exact hh1
    obtain ⟨hpos1, htake1⟩ := headerThroughNewline_elim hh1
    obtain ⟨hpos2, htake2⟩ := headerThroughNewline_elim hh2
    rw [try_new_eq_of_position hpos1, try_new_eq_of_position hpos2]
    have htk : b1.take (p.length - 1) = b2.take (p.length - 1) := by
      rw [htake1, htake2]
    rw [htk]
    cases parseHeaderLine ud jp (b2.take (p.length - 1)) <;> simp [sameOutcome]

/-- C10 witness: the sample body and a body with the same header line but an
invalid UTF-8 tail have identical header segments, and both parse to the same
descriptor. -/
theorem parse_depends_only_on_header_witness :
    sampleBody ≠ [] ∧ altTailBody ≠ [] ∧
    headerThroughNewline sampleBody = headerThroughNewline altTailBody ∧
    sameOutcome (SentryEnvelope.try_new_from_body utf8DecodeRef jsonParseRef sampleBody)
      (SentryEnvelope.try_new_from_body utf8DecodeRef jsonParseRef altTailBody) :=
  ⟨by decide, by decide, by rfl,
    parse_depends_only_on_header utf8DecodeRef jsonParseRef sampleBody altTailBody
      (by decide) (by decide) (by rfl)⟩
